import Mathlib

/-
Verification of the bubble-chart module (src/unnamed/part_000) of
pberden/webpack-d3-bubbles.

The module builds a d3 force-directed bubble chart.  Numeric values are
embedded as rationals (ℚ).  Code of the d3 library itself is not part of
the repository; where a claim depends on d3 semantics (the force
simulation's alpha/stepping behaviour, the ordinal colour scale lookup)
those parts are modelled from the specification and marked
`Modelled from the spec:` in their doc comments.  Everything else is a
direct translation of the source.
-/

namespace BubbleChart

/-- Canvas width constant (source line 6: `var width = 940`). -/
def width : ℚ := 940

/-- Canvas height constant (source line 7: `var height = 600`). -/
def height : ℚ := 600

/-- A point in the plane. -/
structure Point where
  x : ℚ
  y : ℚ
deriving DecidableEq, Repr

/-- Shared centre (source line 8: `var center = \x7b x: width / 3, y: height / 2 \x7d`). -/
def center : Point := { x := width / 3, y := height / 2 }

/-- Uniform bubble radius constant (source line 9: `var radius = 22`). -/
def radius : ℚ := 22

/-- Global force strength (source line 12: `var forceStrength = 0.5`). -/
def forceStrength : ℚ := 1 / 2

/-- A simulation/visualisation node, as built by `createNodes`
(source lines 70-78). -/
structure Node where
  id : ℕ
  radius : ℚ
  name : String
  theme : String
  tag : String
  x : ℚ
  y : ℚ
deriving DecidableEq, Repr

/-- The charge function (source lines 33-35):
`return -Math.pow(d.radius, 2.0) * forceStrength;`.
The module variable `forceStrength` is passed explicitly as `strength`
so the function can be analysed at any value of that variable
(the module sets it to 1/2). -/
def charge (strength : ℚ) (d : Node) : ℚ :=
  -(d.radius ^ 2) * strength

/-- A raw input record as consumed by `createNodes`.  The JavaScript
records are JSON objects; `createNodes` reads only `id`, `name`,
`theme` and `tag`.  A `radius` field is included here to express that a
radius-like field in the raw data is ignored. -/
structure RawRecord where
  id : ℕ
  name : String
  theme : String
  tag : String
  radius : ℚ
deriving DecidableEq, Repr

/-- The node built for raw record `d` when the record is the `k`-th one
processed: `Math.random()` is modelled by the stream `rnd` of successive
draws, the `k`-th record consuming draws `2*k` and `2*k+1`
(source lines 70-78). -/
def mkNode (rnd : ℕ → ℚ) (k : ℕ) (d : RawRecord) : Node :=
  { id := d.id
    radius := radius
    name := d.name
    theme := d.theme
    tag := d.tag
    x := rnd (2 * k) * width
    y := rnd (2 * k + 1) * height }

/-- Recursive worker for `createNodes`: maps `mkNode` over the raw
records while threading the position in the random stream. -/
def createNodesFrom (rnd : ℕ → ℚ) : ℕ → List RawRecord → List Node
  | _, [] => []
  | k, d :: rest => mkNode rnd k d :: createNodesFrom rnd (k + 1) rest

/-- `createNodes` (source lines 68-82): one node per raw record, fields
`id`, `name`, `theme`, `tag` copied, `radius` set to the module
constant, position drawn as `Math.random() * width` and
`Math.random() * height`. -/
def createNodes (rnd : ℕ → ℚ) (rawData : List RawRecord) : List Node :=
  createNodesFrom rnd 0 rawData

/-- Configuration of a positional force: a strength and a 1-D target
coordinate, as produced by `d3.forceX().strength(s).x(t)`
(source lines 42-43 and 191). -/
structure ForceConfig where
  strength : ℚ
  target : ℚ
deriving DecidableEq, Repr

/-- Modelled from the spec: a positional force's contribution to a
node's velocity along its axis.  The spec describes the x/y forces as a
centering pull toward the target, scaled by the strength and the
current alpha; library code (d3.forceX/forceY) is not in the
repository. -/
def ForceConfig.pull (f : ForceConfig) (alpha : ℚ) (pos : ℚ) : ℚ :=
  (f.target - pos) * f.strength * alpha

/-- The x force registered at simulation construction
(source line 42: `.force('x', d3.forceX().strength(forceStrength).x(center.x))`). -/
def initialForceX : ForceConfig :=
  { strength := forceStrength, target := center.x }

/-- The y force registered at simulation construction
(source line 43: `.force('y', d3.forceY().strength(forceStrength).y(center.y))`). -/
def initialForceY : ForceConfig :=
  { strength := forceStrength, target := center.y }

/-- Velocity decay (source line 41: `.velocityDecay(0.2)`). -/
def velocityDecay : ℚ := 1 / 5

/-- Modelled from the spec: the observable state of the force
simulation engine (d3.forceSimulation is library code, not in the
repository) — the decaying energy scalar `alpha`, its stop threshold
and multiplicative decay rate, whether automatic stepping is active,
and the registered positional forces. -/
structure SimState where
  alpha : ℚ
  alphaMin : ℚ
  alphaDecay : ℚ
  stepping : Bool
  forceX : ForceConfig
  forceY : ForceConfig
deriving DecidableEq, Repr

/-- Modelled from the spec: `restart(a)` resets the energy scalar to
`a` and resumes automatic stepping.  `simulation.alpha(1).restart()` in
the source (line 194) is `restart 1`. -/
def SimState.restart (a : ℚ) (s : SimState) : SimState :=
  { s with alpha := a, stepping := true }

/-- Modelled from the spec: `setForce("x", f)` replaces the registered
x force (`simulation.force('x', ...)`, source line 191). -/
def SimState.setForceX (f : ForceConfig) (s : SimState) : SimState :=
  { s with forceX := f }

/-- Modelled from the spec: one simulation step decays `alpha` toward
zero by the fixed multiplicative rate, and stops automatic stepping
once `alpha` has fallen below the minimum threshold. -/
def SimState.step (s : SimState) : SimState :=
  { s with
    alpha := s.alpha * (1 - s.alphaDecay)
    stepping := decide (s.alphaMin ≤ s.alpha * (1 - s.alphaDecay)) }

/-- Modelled from the spec: an automatic scheduling tick — a step is
taken only while automatic stepping is active; once stepping has
ceased, ticks are no-ops until `restart`. -/
def SimState.autoStep (s : SimState) : SimState :=
  if s.stepping then s.step else s

/-- `n` automatic scheduling ticks. -/
def SimState.run (s : SimState) : ℕ → SimState
  | 0 => s
  | n + 1 => (s.run n).autoStep

/-- The simulation as constructed (source lines 40-49): alpha starts at
the library default 1, x/y forces as registered, and `simulation.stop()`
(line 49) leaves automatic stepping halted.  The stop threshold and
decay rate are library configuration, kept as parameters. -/
def mkSimulation (aMin aDecay : ℚ) : SimState :=
  { alpha := 1
    alphaMin := aMin
    alphaDecay := aDecay
    stepping := false
    forceX := initialForceX
    forceY := initialForceY }

/-- The x force installed by `groupBubbles` (source line 191:
`simulation.force('x', d3.forceX().strength(forceStrength).x(center.x))`). -/
def groupBubblesForceX : ForceConfig :=
  { strength := forceStrength, target := center.x }

/-- `groupBubbles` (source lines 189-195): re-register the x force
drawing the bubbles to the centre, then `simulation.alpha(1).restart()`. -/
def groupBubbles (s : SimState) : SimState :=
  (s.setForceX groupBubblesForceX).restart 1

/-- Ordinal colour scale domain (source line 54). -/
def fillDomain : List String :=
  ["groei", "onderneming", "voeding", "financieel"]

/-- Ordinal colour scale range (source line 55). -/
def fillRange : List String :=
  ["#ffca3a", "#3ddc97", "#8ac926", "#ff4f78"]

/-- `fillColor` (source lines 53-55) built with `d3.scaleOrdinal`.
Modelled from the spec: the scale itself is library code, described as
a fixed, ordered domain-to-range lookup from category name to colour,
with unmapped categories falling back to an implementation-defined
default colour, here the parameter `unknownColor`. -/
def fillColor (unknownColor : String) (c : String) : String :=
  match fillDomain.findIdx? (fun d => d == c) with
  | some i => fillRange.getD i unknownColor
  | none => unknownColor

/-- A value-level description of an attribute transition: the attribute
starts at `startValue` and is animated to `endValue` over `duration`
milliseconds. -/
structure Transition where
  duration : ℚ
  startValue : ℚ
  endValue : ℚ
deriving DecidableEq, Repr

/-- Duration of the entrance transitions (source lines 153 and 159:
`.duration(2000)`). -/
def entranceDuration : ℚ := 2000

/-- The entrance animation of a node's circle: the `r` attribute is set
to 10 on creation (source line 136: `.attr('r', 10)`) and then animated
to `d.radius` (source lines 151-154). -/
def circleEntrance (d : Node) : Transition :=
  { duration := entranceDuration, startValue := 10, endValue := d.radius }

/-- The entrance animation of a node's label: `fill-opacity` is set to
0 on creation (source line 145) and animated to 1 (source
lines 157-160). -/
def labelEntrance : Transition :=
  { duration := entranceDuration, startValue := 0, endValue := 1 }

/-- Observable outcome of the loader IIFE: the list of data values the
chart function was invoked with, and the list of logged errors. -/
structure LoadOutcome where
  chartCalls : List (List RawRecord)
  logged : List String
deriving DecidableEq, Repr

/-- The anonymous async IIFE (source lines 206-215): one fetch of
`./data/data.json`, one JSON decode, one chart invocation; any raised
error is caught and logged and nothing further happens.  `fetchRes` is
the outcome of the single `fetch` (the response body on success) and
`decode` the outcome of `res.json()` on a body. -/
def loadAndDisplay (fetchRes : Except String String)
    (decode : String → Except String (List RawRecord)) : LoadOutcome :=
  match fetchRes with
  | .error e => { chartCalls := [], logged := [e] }
  | .ok body =>
    match decode body with
    | .error e => { chartCalls := [], logged := [e] }
    | .ok data => { chartCalls := [data], logged := [] }

end BubbleChart

namespace BubbleChart

/-- C1: the charge contribution of a node is the negated product of the
force strength and the squared radius. -/
theorem charge_eq_neg_strength_mul_radius_sq (strength : ℚ) (d : Node) :
    charge strength d = -(strength * d.radius ^ 2) := by
  unfold charge
  ring

/-- C2: the entrance animation created at initialization sets the
circle's initial radius attribute to 10 — not 0 — before animating it
to the node's target radius over 2000 ms, while the label's opacity
does fade from 0 to 1 over the same duration. -/
theorem circle_entrance_starts_at_ten (d : Node) :
    (circleEntrance d).startValue = 10 ∧
    (circleEntrance d).startValue ≠ 0 ∧
    (circleEntrance d).endValue = d.radius ∧
    (circleEntrance d).duration = 2000 ∧
    labelEntrance.startValue = 0 ∧
    labelEntrance.endValue = 1 ∧
    labelEntrance.duration = 2000 := by
  refine ⟨rfl, ?_, rfl, rfl, rfl, rfl, rfl⟩
  norm_num [circleEntrance]

/-- C7: if the fetch or the JSON decode fails, the error is logged and
the chart function is never invoked; if both succeed, the chart
function is invoked exactly once with the decoded data. -/
theorem loadAndDisplay_spec (fetchRes : Except String String)
    (decode : String → Except String (List RawRecord)) :
    (∀ e, fetchRes = .error e →
      loadAndDisplay fetchRes decode = { chartCalls := [], logged := [e] }) ∧
    (∀ body e, fetchRes = .ok body → decode body = .error e →
      loadAndDisplay fetchRes decode = { chartCalls := [], logged := [e] }) ∧
    (∀ body data, fetchRes = .ok body → decode body = .ok data →
      loadAndDisplay fetchRes decode = { chartCalls := [data], logged := [] }) := by
  refine ⟨?_, ?_, ?_⟩
  · intro e he
    subst he
    rfl
  · intro body e hb hd
    subst hb
    simp [loadAndDisplay, hd]
  · intro body data hb hd
    subst hb
    simp [loadAndDisplay, hd]

/-- Witness for C7 at a concrete failing fetch. -/
theorem loadAndDisplay_spec_witness :
    loadAndDisplay (Except.error "fail") (fun _ => Except.ok ([] : List RawRecord)) =
      { chartCalls := [], logged := ["fail"] } :=
  (loadAndDisplay_spec (Except.error "fail") (fun _ => Except.ok [])).1 "fail" rfl

/-- C8: the i-th category of the domain maps to the i-th colour of the
range, and any category outside the domain yields the
implementation-defined default colour. -/
theorem fillColor_domain_range (u : String) :
    fillColor u "groei" = "#ffca3a" ∧
    fillColor u "onderneming" = "#3ddc97" ∧
    fillColor u "voeding" = "#8ac926" ∧
    fillColor u "financieel" = "#ff4f78" ∧
    (∀ c, c ∉ fillDomain → fillColor u c = u) := by
  refine ⟨rfl, rfl, rfl, rfl, ?_⟩
  intro c hc
  simp [fillDomain] at hc
  obtain ⟨h1, h2, h3, h4⟩ := hc
  simp [fillColor, fillDomain, fillRange, List.findIdx?, Ne.symm h1, Ne.symm h2,
    Ne.symm h3, Ne.symm h4]

/-- Witness for C8 at a concrete default colour and unmapped category. -/
theorem fillColor_domain_range_witness :
    fillColor "#cccccc" "groei" = "#ffca3a" ∧ fillColor "#cccccc" "sport" = "#cccccc" :=
  ⟨(fillColor_domain_range "#cccccc").1,
   (fillColor_domain_range "#cccccc").2.2.2.2 "sport" (by decide)⟩

/-- The worker produces one node per raw record. -/
lemma createNodesFrom_length (rnd : ℕ → ℚ) :
    ∀ (raw : List RawRecord) (k : ℕ), (createNodesFrom rnd k raw).length = raw.length := by
  intro raw
  induction raw with
  | nil => intro k; rfl
  | cons d rest ih => intro k; simp [createNodesFrom, ih]

/-- The `j`-th node produced by the worker started at stream position
`k` is `mkNode` of the `j`-th raw record at stream position `k + j`. -/
lemma createNodesFrom_getElem? (rnd : ℕ → ℚ) :
    ∀ (raw : List RawRecord) (k j : ℕ),
      (createNodesFrom rnd k raw)[j]? = raw[j]?.map (mkNode rnd (k + j)) := by
  intro raw
  induction raw with
  | nil => intro k j; simp [createNodesFrom]
  | cons d rest ih =>
    intro k j
    cases j with
    | zero => simp [createNodesFrom]
    | succ j =>
      have h := ih (k + 1) j
      simp only [createNodesFrom, List.getElem?_cons_succ, h]
      have : k + 1 + j = k + (j + 1) := by omega
      rw [this]

/-- Every node produced by the worker has the module's constant radius. -/
lemma createNodesFrom_radius (rnd : ℕ → ℚ) :
    ∀ (raw : List RawRecord) (k : ℕ) (node : Node),
      node ∈ createNodesFrom rnd k raw → node.radius = radius := by
  intro raw
  induction raw with
  | nil => intro k node h; simp [createNodesFrom] at h
  | cons d rest ih =>
    intro k node h
    simp only [createNodesFrom, List.mem_cons] at h
    rcases h with h | h
    · subst h; rfl
    · exact ih (k + 1) node h

/-- The worker ignores the raw records' radius field. -/
lemma createNodesFrom_ignore_radius (rnd : ℕ → ℚ) (r : ℚ) :
    ∀ (raw : List RawRecord) (k : ℕ),
      createNodesFrom rnd k (raw.map (fun d => { d with radius := r })) =
        createNodesFrom rnd k raw := by
  intro raw
  induction raw with
  | nil => intro k; rfl
  | cons d rest ih => intro k; simp [createNodesFrom, mkNode, ih]

/-- C4: `createNodes` returns one node per input record, each carrying
the record's `id`, `name`, `theme` and `tag` unchanged, with position
drawn from the random stream so that, when every draw lies in `[0, 1)`,
`0 ≤ x < width` and `0 ≤ y < height`. -/
theorem createNodes_one_node_per_record (rnd : ℕ → ℚ) (raw : List RawRecord)
    (hr : ∀ n, 0 ≤ rnd n ∧ rnd n < 1) :
    (createNodes rnd raw).length = raw.length ∧
    ∀ (j : ℕ) (d : RawRecord), raw[j]? = some d →
      ∃ node : Node, (createNodes rnd raw)[j]? = some node ∧
      node.id = d.id ∧ node.name = d.name ∧ node.theme = d.theme ∧ node.tag = d.tag ∧
      0 ≤ node.x ∧ node.x < width ∧ 0 ≤ node.y ∧ node.y < height := by
  constructor
  · exact createNodesFrom_length rnd raw 0
  · intro j d hd
    refine ⟨mkNode rnd j d, ?_, rfl, rfl, rfl, rfl, ?_, ?_, ?_, ?_⟩
    · have h := createNodesFrom_getElem? rnd raw 0 j
      simp only [createNodes, h, hd, Nat.zero_add]
      rfl
    · exact mul_nonneg (hr (2 * j)).1 (by norm_num [width])
    · calc rnd (2 * j) * width < 1 * width := by
            exact mul_lt_mul_of_pos_right (hr (2 * j)).2 (by norm_num [width])
        _ = width := one_mul _
    · exact mul_nonneg (hr (2 * j + 1)).1 (by norm_num [height])
    · calc rnd (2 * j + 1) * height < 1 * height := by
            exact mul_lt_mul_of_pos_right (hr (2 * j + 1)).2 (by norm_num [height])
        _ = height := one_mul _

/-- Witness for C4 at a concrete random stream and record list. -/
theorem createNodes_one_node_per_record_witness :
    (createNodes (fun _ => (1 : ℚ) / 2) [⟨1, "a", "groei", "t", 0⟩]).length = 1 :=
  (createNodes_one_node_per_record (fun _ => (1 : ℚ) / 2) [⟨1, "a", "groei", "t", 0⟩]
    (fun _ => by norm_num)).1

/-- C9: every node produced by `createNodes` has radius exactly the
module constant 22, a positive value, and changing the raw records'
radius field does not change the output at all. -/
theorem createNodes_radius_constant (rnd : ℕ → ℚ) (raw : List RawRecord) (r : ℚ) :
    (∀ node ∈ createNodes rnd raw, node.radius = 22 ∧ 0 < node.radius) ∧
    createNodes rnd (raw.map (fun d => { d with radius := r })) = createNodes rnd raw := by
  constructor
  · intro node h
    have hr := createNodesFrom_radius rnd raw 0 node h
    refine ⟨hr, ?_⟩
    rw [hr]
    norm_num [radius]
  · exact createNodesFrom_ignore_radius rnd r raw 0

/-- Witness for C9 at a concrete record whose radius field differs from 22. -/
theorem createNodes_radius_constant_witness :
    (mkNode (fun _ => (1 : ℚ) / 2) 0 ⟨1, "a", "groei", "t", 7⟩).radius = 22 ∧
    createNodes (fun _ => (1 : ℚ) / 2)
        (([(⟨1, "a", "groei", "t", 7⟩ : RawRecord)]).map (fun d => { d with radius := 3 })) =
      createNodes (fun _ => (1 : ℚ) / 2) [(⟨1, "a", "groei", "t", 7⟩ : RawRecord)] := by
  have h := createNodes_radius_constant (fun _ => (1 : ℚ) / 2) [⟨1, "a", "groei", "t", 7⟩] 3
  exact ⟨(h.1 _ (by simp [createNodes, createNodesFrom])).1, h.2⟩

/-- C3: `groupBubbles` installs an x force of strength `forceStrength`
targeting the shared centre's x coordinate, resets alpha to 1 and
restarts stepping; a second call again yields alpha 1 and active
stepping, and the installed force pulls any node at positive alpha
toward the centre (positive velocity contribution left of the centre,
negative right of it). -/
theorem groupBubbles_recenters_and_restarts (s : SimState) :
    (groupBubbles s).forceX = { strength := forceStrength, target := center.x } ∧
    (groupBubbles s).alpha = 1 ∧
    (groupBubbles s).stepping = true ∧
    (groupBubbles (groupBubbles s)).alpha = 1 ∧
    (groupBubbles (groupBubbles s)).stepping = true ∧
    (∀ a p : ℚ, 0 < a → p < center.x → 0 < (groupBubbles s).forceX.pull a p) ∧
    (∀ a p : ℚ, 0 < a → center.x < p → (groupBubbles s).forceX.pull a p < 0) := by
  refine ⟨rfl, rfl, rfl, rfl, rfl, ?_, ?_⟩
  · intro a p ha hp
    have hpull : (groupBubbles s).forceX.pull a p = (center.x - p) * (1 / 2) * a := rfl
    rw [hpull]
    have hcp : 0 < center.x - p := by linarith
    positivity
  · intro a p ha hp
    have hpull : (groupBubbles s).forceX.pull a p = (center.x - p) * (1 / 2) * a := rfl
    rw [hpull]
    have hcp : center.x - p < 0 := by linarith
    nlinarith

/-- Witness for C3 at the initial simulation state and a node left of
the centre. -/
theorem groupBubbles_recenters_and_restarts_witness :
    (groupBubbles (mkSimulation (1 / 1000) (1 / 10))).alpha = 1 ∧
    0 < (groupBubbles (mkSimulation (1 / 1000) (1 / 10))).forceX.pull 1 0 := by
  have h := groupBubbles_recenters_and_restarts (mkSimulation (1 / 1000) (1 / 10))
  exact ⟨h.2.1, h.2.2.2.2.2.1 1 0 (by norm_num) (by norm_num [center, width])⟩

/-- Counterexample for C6: the registered x force does not target
`x = 313` — its target is `940 / 3`. -/
theorem forces_target_313_counterexample :
    ¬ ((mkSimulation (1 / 1000) (1 / 10)).forceX.target = 313 ∧
       (mkSimulation (1 / 1000) (1 / 10)).forceY.target = 300) := by
  intro h
  have hx : (940 : ℚ) / 3 = 313 := h.1
  norm_num at hx

/-- C6 (amended): the registered x and y centering forces target the
point `(940 / 3, 300)`: the x force pulls every node toward
`x = 940 / 3` and the y force toward `y = 300`. -/
theorem forces_target_center_point (aMin aDecay : ℚ) :
    (mkSimulation aMin aDecay).forceX.target = 940 / 3 ∧
    (mkSimulation aMin aDecay).forceY.target = 300 ∧
    (∀ a p : ℚ, 0 < a → p < 940 / 3 → 0 < (mkSimulation aMin aDecay).forceX.pull a p) ∧
    (∀ a p : ℚ, 0 < a → 940 / 3 < p → (mkSimulation aMin aDecay).forceX.pull a p < 0) ∧
    (∀ a p : ℚ, 0 < a → p < 300 → 0 < (mkSimulation aMin aDecay).forceY.pull a p) ∧
    (∀ a p : ℚ, 0 < a → 300 < p → (mkSimulation aMin aDecay).forceY.pull a p < 0) := by
  refine ⟨rfl, by norm_num [mkSimulation, initialForceY, center, height], ?_, ?_, ?_, ?_⟩ <;>
    intro a p ha hp
  · have hpull : (mkSimulation aMin aDecay).forceX.pull a p = (940 / 3 - p) * (1 / 2) * a := rfl
    rw [hpull]
    have hcp : 0 < (940 : ℚ) / 3 - p := by linarith
    positivity
  · have hpull : (mkSimulation aMin aDecay).forceX.pull a p = (940 / 3 - p) * (1 / 2) * a := rfl
    rw [hpull]
    have hcp : (940 : ℚ) / 3 - p < 0 := by linarith
    nlinarith
  · have hpull : (mkSimulation aMin aDecay).forceY.pull a p = (300 - p) * (1 / 2) * a := by
      norm_num [mkSimulation, initialForceY, center, height, ForceConfig.pull, forceStrength]
    rw [hpull]
    have hcp : 0 < (300 : ℚ) - p := by linarith
    positivity
  · have hpull : (mkSimulation aMin aDecay).forceY.pull a p = (300 - p) * (1 / 2) * a := by
      norm_num [mkSimulation, initialForceY, center, height, ForceConfig.pull, forceStrength]
    rw [hpull]
    have hcp : (300 : ℚ) - p < 0 := by linarith
    nlinarith

/-- Witness for the amended C6 at concrete parameters and positions. -/
theorem forces_target_center_point_witness :
    (mkSimulation (1 / 1000) (1 / 10)).forceX.target = 940 / 3 ∧
    0 < (mkSimulation (1 / 1000) (1 / 10)).forceX.pull 1 0 ∧
    0 < (mkSimulation (1 / 1000) (1 / 10)).forceY.pull 1 0 := by
  have h := forces_target_center_point (1 / 1000) (1 / 10)
  exact ⟨h.1, h.2.2.1 1 0 (by norm_num) (by norm_num),
    h.2.2.2.2.1 1 0 (by norm_num) (by norm_num)⟩

/-- C10: the x force installed by `groupBubbles` is the very same
configuration (strength and target) registered at construction, so on
any state already carrying the construction-time x force the whole
effect of `groupBubbles` is to reset alpha to 1 and restart stepping. -/
theorem groupBubbles_xforce_refinement (s : SimState) (h : s.forceX = initialForceX) :
    groupBubblesForceX = initialForceX ∧
    (groupBubbles s).forceX = s.forceX ∧
    groupBubbles s = { s with alpha := 1, stepping := true } := by
  have hfx : groupBubblesForceX = s.forceX := by rw [h]; rfl
  refine ⟨rfl, hfx, ?_⟩
  simp [groupBubbles, SimState.setForceX, SimState.restart, hfx]

/-- Witness for C10 at the simulation state as constructed. -/
theorem groupBubbles_xforce_refinement_witness :
    groupBubbles (mkSimulation (1 / 1000) (1 / 10)) =
      { mkSimulation (1 / 1000) (1 / 10) with alpha := 1, stepping := true } :=
  (groupBubbles_xforce_refinement (mkSimulation (1 / 1000) (1 / 10)) rfl).2.2

/-- Automatic ticks never change the decay-rate and threshold
parameters. -/
lemma run_params (s : SimState) :
    ∀ n, (s.run n).alphaMin = s.alphaMin ∧ (s.run n).alphaDecay = s.alphaDecay := by
  intro n
  induction n with
  | zero => exact ⟨rfl, rfl⟩
  | succ n ih =>
    simp only [SimState.run, SimState.autoStep]
    by_cases h : (s.run n).stepping <;> simp [h, SimState.step, ih.1, ih.2]

/-- Alpha stays positive along any run when the decay rate is below 1. -/
lemma run_alpha_pos (s : SimState) (hd1 : s.alphaDecay < 1) (h0 : 0 < s.alpha) :
    ∀ n, 0 < (s.run n).alpha := by
  intro n
  induction n with
  | zero => exact h0
  | succ n ih =>
    simp only [SimState.run, SimState.autoStep]
    by_cases h : (s.run n).stepping
    · simp only [h, if_true, SimState.step]
      have hdec : (s.run n).alphaDecay = s.alphaDecay := (run_params s n).2
      have : (0 : ℚ) < 1 - s.alphaDecay := by linarith
      rw [hdec]
      positivity
    · simpa [h] using ih

/-- Once automatic stepping has ceased, every further tick is a no-op. -/
lemma run_of_not_stepping (t : SimState) (h : t.stepping = false) :
    ∀ m, t.run m = t := by
  intro m
  induction m with
  | zero => rfl
  | succ m ih => simp [SimState.run, ih, SimState.autoStep, h]

/-- C5: after `restart 1` the alpha scalar is 1 and stepping is active;
alpha strictly decreases on every tick taken while stepping is active;
a step whose resulting alpha falls below the threshold switches
stepping off; with stepping off all further ticks are no-ops; and only
a new `restart` re-activates stepping, again with alpha 1. -/
theorem restart_alpha_strictly_decreasing (s : SimState)
    (hd0 : 0 < s.alphaDecay) (hd1 : s.alphaDecay < 1) :
    (s.restart 1).alpha = 1 ∧
    (s.restart 1).stepping = true ∧
    (∀ n, ((s.restart 1).run n).stepping = true →
      ((s.restart 1).run (n + 1)).alpha < ((s.restart 1).run n).alpha) ∧
    (∀ n, (((s.restart 1).run n).step).alpha < s.alphaMin →
      (((s.restart 1).run n).step).stepping = false) ∧
    (∀ n m, ((s.restart 1).run n).stepping = false →
      (((s.restart 1).run n).run m) = (s.restart 1).run n) ∧
    (∀ n, ((((s.restart 1).run n).restart 1).stepping = true ∧
      (((s.restart 1).run n).restart 1).alpha = 1)) := by
  have hrd : (s.restart 1).alphaDecay = s.alphaDecay := rfl
  have hpos : ∀ n, 0 < ((s.restart 1).run n).alpha := by
    refine run_alpha_pos (s.restart 1) ?_ ?_
    · rw [hrd]; exact hd1
    · norm_num [SimState.restart]
  refine ⟨rfl, rfl, ?_, ?_, ?_, ?_⟩
  · intro n hstep
    simp only [SimState.run, SimState.autoStep, hstep, if_true, SimState.step]
    have hdec : ((s.restart 1).run n).alphaDecay = s.alphaDecay :=
      (run_params (s.restart 1) n).2
    rw [hdec]
    have ha := hpos n
    nlinarith
  · intro n hlt
    have hmin : ((s.restart 1).run n).alphaMin = s.alphaMin :=
      (run_params (s.restart 1) n).1
    simp only [SimState.step] at hlt ⊢
    rw [hmin]
    exact decide_eq_false (not_le.mpr hlt)
  · intro n m hoff
    exact run_of_not_stepping _ hoff m
  · intro n
    exact ⟨rfl, rfl⟩

/-- Witness for C5 at a concrete decay rate and threshold: after
restart the alpha is 1 and the first automatic tick strictly lowers it. -/
theorem restart_alpha_strictly_decreasing_witness :
    ((mkSimulation (1 / 1000) (1 / 10)).restart 1).alpha = 1 ∧
    (((mkSimulation (1 / 1000) (1 / 10)).restart 1).run 1).alpha <
      (((mkSimulation (1 / 1000) (1 / 10)).restart 1).run 0).alpha := by
  have h := restart_alpha_strictly_decreasing (mkSimulation (1 / 1000) (1 / 10))
    (by norm_num [mkSimulation]) (by norm_num [mkSimulation])
  exact ⟨h.1, h.2.2.1 0 rfl⟩

end BubbleChart
